import Mathlib

set_option linter.unusedVariables false

/-!
Verification development for the ARC-MCP response-rewrite core
(`src/handlers/rewrite_utils.py` and `src/handlers/response_rewriter.py`).

External collaborators (the template file store and the Bedrock text-generation
client) are modelled as parameters: templates as a function
`FindingType → Option String`, and the generation client as a trace
(`List (Option String)`) of responses consumed one per `converse` call, where
`none` models a raised exception and `some t` a successful call returning
text `t`.  `rewrite_response` additionally returns the number of generation
calls made, so that "no generation call occurs" is an observable.
-/

namespace ARC

/-- `FindingType` enum from `rewrite_utils.py` (lines 8-27). -/
inductive FindingType where
  | VALID
  | INVALID
  | SATISFIABLE
  | NO_DATA
  | TRANSLATION_AMBIGUOUS
  | TOO_COMPLEX
deriving DecidableEq, Repr

/-- The `key` string of each enum member. -/
def FindingType.key : FindingType → String
  | .VALID => "VALID"
  | .INVALID => "INVALID"
  | .SATISFIABLE => "SATISFIABLE"
  | .NO_DATA => "NO_DATA"
  | .TRANSLATION_AMBIGUOUS => "TRANSLATION_AMBIGUOUS"
  | .TOO_COMPLEX => "TOO_COMPLEX"

/-- The `priority` of each enum member. -/
def FindingType.priority : FindingType → Nat
  | .VALID => 0
  | .INVALID => 10
  | .SATISFIABLE => 8
  | .NO_DATA => 7
  | .TRANSLATION_AMBIGUOUS => 6
  | .TOO_COMPLEX => 5

/-- `FindingType.from_string`: first member whose key matches, else `None`. -/
def FindingType.from_string (value : String) : Option FindingType :=
  if value = "VALID" then some .VALID
  else if value = "INVALID" then some .INVALID
  else if value = "SATISFIABLE" then some .SATISFIABLE
  else if value = "NO_DATA" then some .NO_DATA
  else if value = "TRANSLATION_AMBIGUOUS" then some .TRANSLATION_AMBIGUOUS
  else if value = "TOO_COMPLEX" then some .TOO_COMPLEX
  else none

/-- One finding dict from the guardrail response.  `result := none` models a
dict with no `result` key (read back via `finding.get('result', 'UNKNOWN')`);
the list fields model `finding.get('violations', [])` etc. -/
structure Finding where
  result : Option String := none
  violations : List String := []
  suggestions : List String := []
  appliedRules : List String := []
deriving DecidableEq, Repr

/-- `finding.get('result', 'UNKNOWN')`. -/
def Finding.resultStr (f : Finding) : String := f.result.getD "UNKNOWN"

/-- Python truthiness of an `Optional[str]`: `None` and `""` are falsy. -/
def optStrTruthy : Option String → Bool
  | none => false
  | some s => s ≠ ""

/-- The grouped mapping `Dict[FindingType, List[finding]]`, modelled as an
association list in key-insertion order (Python dicts preserve insertion
order). -/
abbrev Grouped := List (FindingType × List Finding)

/-- Append a finding to its type's group, creating the group at the end of the
dict when absent (`categorized[finding_type].append(finding)`). -/
def addToGroup (m : Grouped) (ft : FindingType) (f : Finding) : Grouped :=
  match m with
  | [] => [(ft, [f])]
  | (k, fs) :: rest =>
      if k = ft then (k, fs ++ [f]) :: rest else (k, fs) :: addToGroup rest ft f

/-- `FindingProcessor.categorize_findings` (`rewrite_utils.py` lines 36-49):
group findings by `FindingType.from_string(result)`, silently dropping
findings whose result string is unrecognized. -/
def categorize_findings (findings : List Finding) : Grouped :=
  findings.foldl
    (fun m f =>
      match FindingType.from_string f.resultStr with
      | some ft => addToGroup m ft f
      | none => m)
    []

/-- The step function of `categorize_findings`. -/
def categorizeStep (m : Grouped) (f : Finding) : Grouped :=
  match FindingType.from_string f.resultStr with
  | some ft => addToGroup m ft f
  | none => m

/-- Dict lookup `findings_by_type[ft]`, defaulting to `[]` for absent keys
(matches `findings_by_type.get(ft, [])`). -/
def lookupType (m : Grouped) (ft : FindingType) : List Finding :=
  match m with
  | [] => []
  | (k, fs) :: rest => if k = ft then fs else lookupType rest ft

/-- The dict's key sequence (insertion order). -/
def keysOf (m : Grouped) : List FindingType := m.map Prod.fst

/-- Insert into a priority-descending list, keeping earlier elements first on
ties (insertion-sort step for Python's stable `sorted(..., reverse=True)`). -/
def insertDesc (ft : FindingType) : List FindingType → List FindingType
  | [] => [ft]
  | x :: xs =>
      if x.priority < ft.priority then ft :: x :: xs else x :: insertDesc ft xs

/-- Sort finding types by priority, highest first (insertion sort; ties are
impossible because priorities are distinct, so this computes the same list as
any correct descending sort). -/
def sortByPriorityDesc (l : List FindingType) : List FindingType :=
  l.foldr insertDesc []

/-- `FindingProcessor.get_priority_types` (`rewrite_utils.py` lines 51-63):
the dict's keys sorted by priority, highest first; `[]` for the empty dict. -/
def get_priority_types (findings_by_type : Grouped) : List FindingType :=
  if findings_by_type = [] then []
  else sortByPriorityDesc (keysOf findings_by_type)

/-- `FindingProcessor.process_finding_data` (`rewrite_utils.py` lines 65-106):
aggregate violations, suggestions and applied rules across the findings into
template fields.  Returned as the dict's key/value pairs in insertion order;
an empty findings list yields the empty dict. -/
def process_finding_data (policy_definition : Option String)
    (finding_type : FindingType) (findings : List Finding) :
    List (String × String) :=
  if findings = [] then []
  else
    let all_violations := findings.foldl (fun acc f => acc ++ f.violations) []
    let all_suggestions := findings.foldl (fun acc f => acc ++ f.suggestions) []
    let all_rules := findings.foldl (fun acc f => acc ++ f.appliedRules) []
    let violationsField :=
      if all_violations ≠ [] then
        String.intercalate "\n" (all_violations.map (fun v => "- " ++ v))
      else "No specific violations found"
    let suggestionsField :=
      if all_suggestions ≠ [] then
        String.intercalate "\n" (all_suggestions.map (fun s => "- " ++ s))
      else "Ensure compliance with policy requirements"
    let rulesField :=
      if all_rules ≠ [] then String.intercalate ", " all_rules
      else "Policy rules"
    let base := [("violations", violationsField),
                 ("suggestions", suggestionsField),
                 ("applied_rules", rulesField)]
    if optStrTruthy policy_definition then
      base ++ [("policy", policy_definition.getD "")]
    else base

/-- One substitution pass over a character list: each (leftmost, non-overlapping)
occurrence of `pat` is replaced by `rep`.  Fuel-structured so it computes in the
kernel; called with fuel `= s.length`, which always suffices. -/
def substFuel (pat rep : List Char) : Nat → List Char → List Char
  | 0, s => s
  | _, [] => []
  | fuel + 1, c :: rest =>
      if pat ≠ [] ∧ pat.isPrefixOf (c :: rest) then
        rep ++ substFuel pat rep fuel (List.drop pat.length (c :: rest))
      else c :: substFuel pat rep fuel rest

/-- Replace every occurrence of `pat` in `s` by `rep`. -/
def replaceAll (s pat rep : String) : String :=
  ⟨substFuel pat.data rep.data s.data.length s.data⟩

/-- `TemplateManager.format_template` (`template_manager.py` lines 37-42),
modelled as textual substitution of each `\x7bname\x7d` placeholder by its
value.  The `KeyError → ValueError` path for a template referencing a variable
that is not supplied is not modelled: no property in scope exercises it, and
it would abort the whole call rather than produce a prompt. -/
def format_template (template : String) (vars : List (String × String)) :
    String :=
  vars.foldl
    (fun acc kv => replaceAll acc ("\x7b" ++ kv.1 ++ "\x7d") kv.2) template

/-- `TemplateManager.get_template` (`template_manager.py` lines 19-35): always
`None` for `VALID` and `TOO_COMPLEX`; otherwise the template file store is
consulted, abstracted as the function `templates` (with `none` covering a
missing file and a read error). -/
def get_template (templates : FindingType → Option String)
    (finding_type : FindingType) : Option String :=
  if finding_type = .VALID ∨ finding_type = .TOO_COMPLEX then none
  else templates finding_type

/-- The `ResponseRewriter` object configuration: the template store (external
collaborator), the optional policy text and the domain label. -/
structure Ctx where
  templates : FindingType → Option String
  policy_definition : Option String := none
  domain : String := "General"

/-- `ResponseRewriter.prepare_rewrite_prompt` (`response_rewriter.py` lines
33-69): `None` when no usable template exists (`if not template`, which also
catches an empty template string), else the template formatted with the fixed
context fields plus the aggregated finding data. -/
def prepare_rewrite_prompt (ctx : Ctx) (user_query llm_response : String)
    (finding_type : FindingType) (relevant_findings : List Finding) :
    Option String :=
  match get_template ctx.templates finding_type with
  | none => none
  | some template =>
      if template = "" then none
      else
        let template_vars := [("domain", ctx.domain),
                              ("question", user_query),
                              ("original_answer", llm_response)]
        let finding_data :=
          process_finding_data ctx.policy_definition finding_type
            relevant_findings
        some (format_template template (template_vars ++ finding_data))

/-- The generation client, as the trace of its responses: one entry consumed
per `converse` call; `none` models a raised exception, `some t` a successful
call whose extracted output text is `t`. -/
abbrev Client := List (Option String)

/-- One `bedrock_runtime_client.converse` call against the trace.  An
exhausted trace behaves as a failing call. -/
def converse (client : Client) : Option String × Client :=
  match client with
  | [] => (none, [])
  | r :: rest => (r, rest)

/-- One entry of the orchestrator's `rewrites` list. -/
structure Rewrite where
  finding_type : String
  rewritten_text : String
deriving DecidableEq, Repr

/-- The `result` dict returned by `rewrite_response`. -/
structure RewriteResult where
  original_response : String
  rewritten : Bool
  finding_types : List String
  findings_count : Nat
  rewritten_response : Option String
  message : Option String
deriving DecidableEq, Repr

/-- Mutable state threaded through the per-category loop of
`rewrite_response` (lines 136-162): the `rewrites` accumulator, the two
result fields updated inside the loop, the remaining client trace, and the
number of generation calls made so far. -/
structure LoopState where
  rewrites : List Rewrite
  finding_types : List String
  findings_count : Nat
  client : Client
  calls : Nat
deriving Repr

/-- One iteration of the per-category loop (`response_rewriter.py` lines
137-162): compose the prompt; if it is usable, make one generation call; on
success append the rewrite and update the result fields, on an exception
(`none`) skip the category and continue. -/
def processType (ctx : Ctx) (user_query llm_response : String)
    (findings_by_type : Grouped) (st : LoopState)
    (finding_type : FindingType) : LoopState :=
  let relevant_findings := lookupType findings_by_type finding_type
  let prompt :=
    prepare_rewrite_prompt ctx user_query llm_response finding_type
      relevant_findings
  if optStrTruthy prompt then
    match converse st.client with
    | (some rewritten_text, rest) =>
        { rewrites := st.rewrites ++
            [{ finding_type := finding_type.key,
               rewritten_text := rewritten_text }],
          finding_types := st.finding_types ++ [finding_type.key],
          findings_count := st.findings_count + relevant_findings.length,
          client := rest,
          calls := st.calls + 1 }
    | (none, rest) => { st with client := rest, calls := st.calls + 1 }
  else st

/-- The per-category loop over the priority-ordered category list. -/
def processTypes (ctx : Ctx) (user_query llm_response : String)
    (findings_by_type : Grouped) :
    List FindingType → LoopState → LoopState
  | [], st => st
  | ft :: rest, st =>
      processTypes ctx user_query llm_response findings_by_type rest
        (processType ctx user_query llm_response findings_by_type st ft)

/-- The fixed canned message of the `TOO_COMPLEX` short-circuit
(`response_rewriter.py` lines 121-124). -/
def tooComplexMessage : String :=
  "This question contains too much information to process accurately. " ++
  "Please break it down into simpler, more focused questions."

/-- `ResponseRewriter._combine_rewrites` (`response_rewriter.py` lines
188-242): builds the fixed merge prompt from the per-category rewrites and
makes exactly one generation call, returning its text, or `none` when the
call raises.  The merge prompt's text is not materialized here: generation is
modelled by the response trace, so only the call and its outcome are
observable. -/
def _combine_rewrites (user_query llm_response : String)
    (rewrites : List Rewrite) (client : Client) : Option String × Client :=
  converse client

/-- The initial `result` dict of `rewrite_response` (lines 92-99). -/
def emptyResult (llm_response : String) : RewriteResult :=
  { original_response := llm_response, rewritten := false,
    finding_types := [], findings_count := 0,
    rewritten_response := none, message := none }

/-- The loop's initial state: nothing accumulated, full client trace, no
calls made. -/
def initState (client : Client) : LoopState :=
  { rewrites := [], finding_types := [], findings_count := 0,
    client := client, calls := 0 }

/-- The tail of `rewrite_response` after the per-category loop
(lines 164-186): no rewrites / exactly one / combine several. -/
def combineStep (user_query llm_response : String) (result0 : RewriteResult)
    (st : LoopState) : RewriteResult × Nat :=
  match st.rewrites with
  | [] =>
      ({ result0 with
           finding_types := st.finding_types,
           findings_count := st.findings_count,
           message := some "No rewrites generated" }, st.calls)
  | [r] =>
      ({ result0 with
           finding_types := st.finding_types,
           findings_count := st.findings_count,
           rewritten_response := some r.rewritten_text,
           rewritten := true,
           message := some ("Successfully rewrote response for " ++
             r.finding_type) }, st.calls)
  | r1 :: r2 :: rs =>
      let combined :=
        _combine_rewrites user_query llm_response (r1 :: r2 :: rs) st.client
      if optStrTruthy combined.1 then
        ({ result0 with
             finding_types := st.finding_types,
             findings_count := st.findings_count,
             rewritten_response := combined.1,
             rewritten := true,
             message := some ("Successfully rewrote response for: " ++
               String.intercalate ", " st.finding_types) },
         st.calls + 1)
      else
        ({ result0 with
             finding_types := st.finding_types,
             findings_count := st.findings_count,
             message := some "Error combining rewrites" }, st.calls + 1)

/-- `ResponseRewriter.rewrite_response` (`response_rewriter.py` lines 71-186).
Returns the result dict together with the number of generation calls made. -/
def rewrite_response (ctx : Ctx) (user_query llm_response : String)
    (ar_findings : Option (List Finding)) (client : Client) :
    RewriteResult × Nat :=
  let result0 : RewriteResult := emptyResult llm_response
  match ar_findings with
  | none => ({ result0 with message := some "No findings to process" }, 0)
  | some findings =>
    if findings = [] then
      ({ result0 with message := some "No findings to process" }, 0)
    else
      let findings_by_type := categorize_findings findings
      let priority_types := get_priority_types findings_by_type
      if priority_types = [] then
        ({ result0 with message := some "No actionable findings" }, 0)
      else if priority_types = [FindingType.TOO_COMPLEX] then
        ({ result0 with
             finding_types := [FindingType.TOO_COMPLEX.key],
             findings_count :=
               (lookupType findings_by_type .TOO_COMPLEX).length,
             rewritten := true,
             rewritten_response := some tooComplexMessage,
             message := some "Replaced with generic TOO_COMPLEX message" }, 0)
      else if priority_types = [FindingType.VALID] then
        ({ result0 with
             finding_types := [FindingType.VALID.key],
             message := some ("No rewrite needed. Finding type: " ++
               FindingType.VALID.key),
             findings_count := (lookupType findings_by_type .VALID).length },
         0)
      else
        combineStep user_query llm_response result0
          (processTypes ctx user_query llm_response findings_by_type
            priority_types (initState client))

/-- Whether a category composes a usable (truthy) prompt in this run. -/
def hasPrompt (ctx : Ctx) (user_query llm_response : String)
    (findings_by_type : Grouped) (finding_type : FindingType) : Bool :=
  optStrTruthy
    (prepare_rewrite_prompt ctx user_query llm_response finding_type
      (lookupType findings_by_type finding_type))

/-- Modelled from the spec (§4.4 step 5, §3 RewriteOutcome): the sequence of
RewriteOutcomes — category paired with its generated text — produced by
walking the priority-ordered category list against the response trace: a
category with a usable prompt consumes one response, succeeding exactly when
that response is a returned text. -/
def specOutcomes (ctx : Ctx) (user_query llm_response : String)
    (findings_by_type : Grouped) :
    List FindingType → Client → List (FindingType × String)
  | [], _ => []
  | ft :: rest, client =>
      if hasPrompt ctx user_query llm_response findings_by_type ft then
        match converse client with
        | (some text, c) =>
            (ft, text) ::
              specOutcomes ctx user_query llm_response findings_by_type rest c
        | (none, c) =>
            specOutcomes ctx user_query llm_response findings_by_type rest c
      else
        specOutcomes ctx user_query llm_response findings_by_type rest client

/-- Number of categories that compose a usable prompt, i.e. the number of
per-category generation calls the loop makes. -/
def promptCount (ctx : Ctx) (user_query llm_response : String)
    (findings_by_type : Grouped) (priority_types : List FindingType) : Nat :=
  priority_types.countP (hasPrompt ctx user_query llm_response findings_by_type)

/-! ### Lemmas about classification -/

theorem lookupType_addToGroup_self (m : Grouped) (ft : FindingType)
    (f : Finding) :
    lookupType (addToGroup m ft f) ft = lookupType m ft ++ [f] := by
  induction m with
  | nil => simp [addToGroup, lookupType]
  | cons kv rest ih =>
    obtain ⟨k, fs⟩ := kv
    by_cases h : k = ft
    · subst h
      simp [addToGroup, lookupType]
    · simp [addToGroup, lookupType, h, ih]

theorem lookupType_addToGroup_ne (m : Grouped) (ft ft2 : FindingType)
    (f : Finding) (h : ft2 ≠ ft) :
    lookupType (addToGroup m ft f) ft2 = lookupType m ft2 := by
  have hne : ¬ ft = ft2 := fun e => h e.symm
  induction m with
  | nil => simp [addToGroup, lookupType, hne]
  | cons kv rest ih =>
    obtain ⟨k, fs⟩ := kv
    by_cases hk : k = ft
    · subst hk
      simp [addToGroup, lookupType, hne]
    · simp [addToGroup, lookupType, hk, ih]

theorem categorize_findings_eq_foldl (findings : List Finding) :
    categorize_findings findings = findings.foldl categorizeStep [] := rfl

theorem lookupType_foldl_categorizeStep (ft : FindingType) :
    ∀ (fs : List Finding) (m : Grouped),
      lookupType (fs.foldl categorizeStep m) ft =
        lookupType m ft ++
          fs.filter (fun f => FindingType.from_string f.resultStr = some ft)
  | [], m => by simp
  | f :: fs, m => by
    rcases hf : FindingType.from_string f.resultStr with _ | ft2
    · rw [List.foldl_cons]
      rw [show categorizeStep m f = m by simp [categorizeStep, hf]]
      rw [lookupType_foldl_categorizeStep ft fs m]
      simp [List.filter_cons, hf]
    · rw [List.foldl_cons]
      rw [show categorizeStep m f = addToGroup m ft2 f by
        simp [categorizeStep, hf]]
      rw [lookupType_foldl_categorizeStep ft fs (addToGroup m ft2 f)]
      by_cases h : ft2 = ft
      · subst h
        rw [lookupType_addToGroup_self]
        simp [List.filter_cons, hf]
      · rw [lookupType_addToGroup_ne m ft2 ft f (fun e => h e.symm)]
        simp [List.filter_cons, hf, h]

/-- The group of a category in the classified mapping is exactly the findings
whose result string maps to that category, in order. -/
theorem lookupType_categorize (findings : List Finding) (ft : FindingType) :
    lookupType (categorize_findings findings) ft =
      findings.filter
        (fun f => FindingType.from_string f.resultStr = some ft) := by
  rw [categorize_findings_eq_foldl,
    lookupType_foldl_categorizeStep ft findings []]
  simp [lookupType]

theorem keysOf_cons (kv : FindingType × List Finding) (m : Grouped) :
    keysOf (kv :: m) = kv.1 :: keysOf m := rfl

theorem keysOf_addToGroup (m : Grouped) (ft : FindingType) (f : Finding) :
    keysOf (addToGroup m ft f) =
      if ft ∈ keysOf m then keysOf m else keysOf m ++ [ft] := by
  induction m with
  | nil => simp [addToGroup, keysOf]
  | cons kv rest ih =>
    obtain ⟨k, fs⟩ := kv
    by_cases h : k = ft
    · subst h
      simp [addToGroup, keysOf_cons]
    · have hne : ¬ ft = k := fun e => h e.symm
      simp only [addToGroup, if_neg h, keysOf_cons]
      by_cases hmem : ft ∈ keysOf rest
      · rw [ih, if_pos hmem, if_pos (List.mem_cons_of_mem k hmem)]
      · rw [ih, if_neg hmem,
          if_neg (fun hc => (List.mem_cons.1 hc).elim hne hmem)]
        simp

theorem mem_keysOf_addToGroup (m : Grouped) (ft x : FindingType)
    (f : Finding) :
    x ∈ keysOf (addToGroup m ft f) ↔ x ∈ keysOf m ∨ x = ft := by
  rw [keysOf_addToGroup]
  split
  · constructor
    · exact Or.inl
    · rintro (hx | rfl)
      · exact hx
      · assumption
  · simp

theorem nodup_keysOf_addToGroup (m : Grouped) (ft : FindingType) (f : Finding)
    (h : (keysOf m).Nodup) : (keysOf (addToGroup m ft f)).Nodup := by
  rw [keysOf_addToGroup]
  split
  · exact h
  · simp_all [List.nodup_append]

theorem nodup_keysOf_foldl_categorizeStep :
    ∀ (fs : List Finding) (m : Grouped), (keysOf m).Nodup →
      (keysOf (fs.foldl categorizeStep m)).Nodup
  | [], m, h => h
  | f :: fs, m, h => by
    rw [List.foldl_cons]
    refine nodup_keysOf_foldl_categorizeStep fs _ ?_
    unfold categorizeStep
    rcases FindingType.from_string f.resultStr with _ | ft2
    · exact h
    · exact nodup_keysOf_addToGroup m ft2 f h

/-- The classified mapping is a genuine dict: its keys are distinct. -/
theorem nodup_keysOf_categorize (findings : List Finding) :
    (keysOf (categorize_findings findings)).Nodup := by
  rw [categorize_findings_eq_foldl]
  exact nodup_keysOf_foldl_categorizeStep findings [] (by simp [keysOf])

theorem foldl_categorizeStep_all_unrecognized :
    ∀ (fs : List Finding), (∀ f ∈ fs, FindingType.from_string f.resultStr = none) →
      ∀ m : Grouped, fs.foldl categorizeStep m = m
  | [], _, m => rfl
  | f :: fs, h, m => by
    rw [List.foldl_cons,
      show categorizeStep m f = m by
        simp [categorizeStep, h f (by simp)]]
    exact foldl_categorizeStep_all_unrecognized fs
      (fun g hg => h g (List.mem_cons_of_mem f hg)) m

/-- A finding set in which every result string is unrecognized classifies to
the empty mapping. -/
theorem categorize_all_unrecognized (findings : List Finding)
    (h : ∀ f ∈ findings, FindingType.from_string f.resultStr = none) :
    categorize_findings findings = [] := by
  rw [categorize_findings_eq_foldl]
  exact foldl_categorizeStep_all_unrecognized findings h []

/-! ### Lemmas about priority sorting -/

theorem insertDesc_perm (ft : FindingType) (l : List FindingType) :
    List.Perm (insertDesc ft l) (ft :: l) := by
  induction l with
  | nil => simp [insertDesc]
  | cons x xs ih =>
    by_cases h : x.priority < ft.priority
    · simp [insertDesc, h]
    · simp only [insertDesc, if_neg h]
      exact (ih.cons x).trans (List.Perm.swap ft x xs)

theorem mem_insertDesc (ft y : FindingType) (l : List FindingType) :
    y ∈ insertDesc ft l ↔ y = ft ∨ y ∈ l := by
  rw [(insertDesc_perm ft l).mem_iff]
  simp

theorem pairwise_insertDesc (ft : FindingType) (l : List FindingType)
    (h : l.Pairwise (fun a b => b.priority ≤ a.priority)) :
    (insertDesc ft l).Pairwise (fun a b => b.priority ≤ a.priority) := by
  induction l with
  | nil => simp [insertDesc]
  | cons x xs ih =>
    rcases List.pairwise_cons.1 h with ⟨hx, hxs⟩
    by_cases hlt : x.priority < ft.priority
    · simp only [insertDesc, if_pos hlt]
      refine List.pairwise_cons.2 ⟨?_, h⟩
      intro y hy
      rcases List.mem_cons.1 hy with rfl | hy2
      · exact Nat.le_of_lt hlt
      · exact le_trans (hx y hy2) (Nat.le_of_lt hlt)
    · simp only [insertDesc, if_neg hlt]
      refine List.pairwise_cons.2 ⟨?_, ih hxs⟩
      intro y hy
      rcases (mem_insertDesc ft y xs).1 hy with rfl | hy2
      · exact Nat.le_of_not_lt hlt
      · exact hx y hy2

theorem sortByPriorityDesc_perm (l : List FindingType) :
    List.Perm (sortByPriorityDesc l) l := by
  induction l with
  | nil => rfl
  | cons x xs ih =>
    exact (insertDesc_perm x (sortByPriorityDesc xs)).trans (ih.cons x)

theorem sortByPriorityDesc_pairwise (l : List FindingType) :
    (sortByPriorityDesc l).Pairwise (fun a b => b.priority ≤ a.priority) := by
  induction l with
  | nil => simp [sortByPriorityDesc]
  | cons x xs ih => exact pairwise_insertDesc x _ ih

/-- Distinct finding types have distinct priority ranks. -/
theorem priority_injective :
    ∀ a b : FindingType, a.priority = b.priority → a = b := by
  intro a b h
  cases a <;> cases b <;> first
    | rfl
    | simp [FindingType.priority] at h

theorem mem_get_priority_types (m : Grouped) (x : FindingType) :
    x ∈ get_priority_types m ↔ x ∈ keysOf m := by
  unfold get_priority_types
  split
  · simp_all [keysOf]
  · exact (sortByPriorityDesc_perm (keysOf m)).mem_iff

theorem get_priority_types_pairwise_lt (m : Grouped)
    (h : (keysOf m).Nodup) :
    (get_priority_types m).Pairwise (fun a b => b.priority < a.priority) := by
  unfold get_priority_types
  split
  · simp
  · have hnd : (sortByPriorityDesc (keysOf m)).Nodup :=
      ((sortByPriorityDesc_perm (keysOf m)).nodup_iff).2 h
    have hpw := sortByPriorityDesc_pairwise (keysOf m)
    refine (hpw.and hnd).imp ?_
    intro a b hab
    exact Nat.lt_of_le_of_ne hab.1
      (fun e => hab.2 (priority_injective b a e).symm)

/-! ### Lemmas about the per-category loop -/

theorem optStrTruthy_isSome (o : Option String) (h : optStrTruthy o = true) :
    o.isSome := by
  cases o <;> simp_all [optStrTruthy]

theorem processType_no_prompt (ctx : Ctx) (u l : String) (fbt : Grouped)
    (st : LoopState) (ft : FindingType)
    (h : hasPrompt ctx u l fbt ft = false) :
    processType ctx u l fbt st ft = st := by
  unfold hasPrompt at h
  simp [processType, h]

theorem processType_exhausted (ctx : Ctx) (u l : String) (fbt : Grouped)
    (st : LoopState) (ft : FindingType)
    (h : hasPrompt ctx u l fbt ft = true) (hc : st.client = []) :
    processType ctx u l fbt st ft =
      { st with client := [], calls := st.calls + 1 } := by
  unfold hasPrompt at h
  simp [processType, h, hc, converse]

theorem processType_fail (ctx : Ctx) (u l : String) (fbt : Grouped)
    (st : LoopState) (ft : FindingType) (c : Client)
    (h : hasPrompt ctx u l fbt ft = true) (hc : st.client = none :: c) :
    processType ctx u l fbt st ft =
      { st with client := c, calls := st.calls + 1 } := by
  unfold hasPrompt at h
  simp [processType, h, hc, converse]

theorem processType_success (ctx : Ctx) (u l : String) (fbt : Grouped)
    (st : LoopState) (ft : FindingType) (t : String) (c : Client)
    (h : hasPrompt ctx u l fbt ft = true) (hc : st.client = some t :: c) :
    processType ctx u l fbt st ft =
      { rewrites := st.rewrites ++
          [{ finding_type := ft.key, rewritten_text := t }],
        finding_types := st.finding_types ++ [ft.key],
        findings_count := st.findings_count + (lookupType fbt ft).length,
        client := c,
        calls := st.calls + 1 } := by
  unfold hasPrompt at h
  simp [processType, h, hc, converse]

/-- The loop, related to its spec-side observables: the accumulated rewrites,
recorded categories and finding counts come exactly from the successful
RewriteOutcomes, the trace advances by one entry per usable prompt, and the
number of generation calls equals the number of usable prompts. -/
theorem processTypes_spec (ctx : Ctx) (u l : String) (fbt : Grouped)
    (P : List FindingType) :
    ∀ st : LoopState,
      (processTypes ctx u l fbt P st).rewrites =
          st.rewrites ++ (specOutcomes ctx u l fbt P st.client).map
            (fun p =>
              { finding_type := p.1.key, rewritten_text := p.2 : Rewrite }) ∧
      (processTypes ctx u l fbt P st).finding_types =
          st.finding_types ++
            (specOutcomes ctx u l fbt P st.client).map (fun p => p.1.key) ∧
      (processTypes ctx u l fbt P st).findings_count =
          st.findings_count +
            ((specOutcomes ctx u l fbt P st.client).map
              (fun p => (lookupType fbt p.1).length)).sum ∧
      (processTypes ctx u l fbt P st).client =
          st.client.drop (promptCount ctx u l fbt P) ∧
      (processTypes ctx u l fbt P st).calls =
          st.calls + promptCount ctx u l fbt P := by
  induction P with
  | nil =>
    intro st
    simp [processTypes, specOutcomes, promptCount]
  | cons ft rest ih =>
    intro st
    by_cases h : hasPrompt ctx u l fbt ft
    · rcases hc : st.client with _ | ⟨r, c⟩
      · have hrec : processTypes ctx u l fbt (ft :: rest) st =
            processTypes ctx u l fbt rest
              { st with client := [], calls := st.calls + 1 } := by
          simp only [processTypes]
          rw [processType_exhausted ctx u l fbt st ft h hc]
        rw [hrec]
        obtain ⟨ih1, ih2, ih3, ih4, ih5⟩ :=
          ih { st with client := [], calls := st.calls + 1 }
        simp only [specOutcomes, if_pos h, converse] at ih1 ih2 ih3 ih4 ih5 ⊢
        refine ⟨ih1, ih2, ih3, ?_, ?_⟩
        · simp [ih4]
        · rw [ih5]
          simp [promptCount, List.countP_cons, h]
          omega
      · cases r with
        | none =>
          have hrec : processTypes ctx u l fbt (ft :: rest) st =
              processTypes ctx u l fbt rest
                { st with client := c, calls := st.calls + 1 } := by
            simp only [processTypes]
            rw [processType_fail ctx u l fbt st ft c h hc]
          rw [hrec]
          obtain ⟨ih1, ih2, ih3, ih4, ih5⟩ :=
            ih { st with client := c, calls := st.calls + 1 }
          simp only [specOutcomes, if_pos h, converse] at ih1 ih2 ih3 ih4 ih5 ⊢
          refine ⟨ih1, ih2, ih3, ?_, ?_⟩
          · rw [ih4]
            simp [promptCount, List.countP_cons, h, List.drop_succ_cons]
          · rw [ih5]
            simp [promptCount, List.countP_cons, h]
            omega
        | some t =>
          have hrec : processTypes ctx u l fbt (ft :: rest) st =
              processTypes ctx u l fbt rest
                { rewrites := st.rewrites ++
                    [{ finding_type := ft.key, rewritten_text := t }],
                  finding_types := st.finding_types ++ [ft.key],
                  findings_count :=
                    st.findings_count + (lookupType fbt ft).length,
                  client := c,
                  calls := st.calls + 1 } := by
            simp only [processTypes]
            rw [processType_success ctx u l fbt st ft t c h hc]
          rw [hrec]
          obtain ⟨ih1, ih2, ih3, ih4, ih5⟩ :=
            ih { rewrites := st.rewrites ++
                   [{ finding_type := ft.key, rewritten_text := t }],
                 finding_types := st.finding_types ++ [ft.key],
                 findings_count :=
                   st.findings_count + (lookupType fbt ft).length,
                 client := c,
                 calls := st.calls + 1 }
          simp only [specOutcomes, if_pos h, converse] at ih1 ih2 ih3 ih4 ih5 ⊢
          refine ⟨?_, ?_, ?_, ?_, ?_⟩
          · rw [ih1]
            simp
          · rw [ih2]
            simp
          · rw [ih3]
            simp
            omega
          · rw [ih4]
            simp [promptCount, List.countP_cons, h, List.drop_succ_cons]
          · rw [ih5]
            simp [promptCount, List.countP_cons, h]
            omega
    · have hrec : processTypes ctx u l fbt (ft :: rest) st =
          processTypes ctx u l fbt rest st := by
        simp only [processTypes]
        rw [processType_no_prompt ctx u l fbt st ft (Bool.eq_false_iff.mpr h)]
      have hS : specOutcomes ctx u l fbt (ft :: rest) st.client =
          specOutcomes ctx u l fbt rest st.client := by
        simp [specOutcomes, h]
      have hpc : promptCount ctx u l fbt (ft :: rest) =
          promptCount ctx u l fbt rest := by
        simp [promptCount, List.countP_cons, h]
      rw [hrec, hS, hpc]
      exact ih st

/-- The categories that produce a RewriteOutcome form a subsequence of the
processed category list. -/
theorem specOutcomes_fst_sublist (ctx : Ctx) (u l : String) (fbt : Grouped) :
    ∀ (P : List FindingType) (client : Client),
      List.Sublist ((specOutcomes ctx u l fbt P client).map Prod.fst) P
  | [], _ => by simp [specOutcomes]
  | ft :: rest, client => by
    by_cases h : hasPrompt ctx u l fbt ft
    · rcases client with _ | ⟨r, c⟩
      · simp only [specOutcomes, if_pos h, converse]
        exact List.Sublist.cons ft (specOutcomes_fst_sublist ctx u l fbt rest [])
      · cases r with
        | none =>
          simp only [specOutcomes, if_pos h, converse]
          exact List.Sublist.cons ft (specOutcomes_fst_sublist ctx u l fbt rest c)
        | some t =>
          simp only [specOutcomes, if_pos h, converse, List.map_cons]
          exact List.Sublist.cons₂ ft (specOutcomes_fst_sublist ctx u l fbt rest c)
    · simp only [specOutcomes, if_neg h]
      exact List.Sublist.cons ft (specOutcomes_fst_sublist ctx u l fbt rest client)

/-! ### Lemmas about the post-loop combination step -/

theorem combineStep_of_rewrites_nil (u l : String) (r0 : RewriteResult)
    (st : LoopState) (h : st.rewrites = []) :
    combineStep u l r0 st =
      ({ r0 with
          finding_types := st.finding_types,
          findings_count := st.findings_count,
          message := some "No rewrites generated" }, st.calls) := by
  unfold combineStep
  split
  · rfl
  · simp_all
  · simp_all

theorem combineStep_of_rewrites_single (u l : String) (r0 : RewriteResult)
    (st : LoopState) (r : Rewrite) (h : st.rewrites = [r]) :
    combineStep u l r0 st =
      ({ r0 with
          finding_types := st.finding_types,
          findings_count := st.findings_count,
          rewritten_response := some r.rewritten_text,
          rewritten := true,
          message := some ("Successfully rewrote response for " ++
            r.finding_type) }, st.calls) := by
  unfold combineStep
  split
  · simp_all
  · simp_all
  · simp_all

theorem combineStep_merge_fail (u l : String) (r0 : RewriteResult)
    (st : LoopState) (r1 r2 : Rewrite) (rs : List Rewrite)
    (h : st.rewrites = r1 :: r2 :: rs)
    (hfail : optStrTruthy (converse st.client).1 = false) :
    combineStep u l r0 st =
      ({ r0 with
          finding_types := st.finding_types,
          findings_count := st.findings_count,
          message := some "Error combining rewrites" }, st.calls + 1) := by
  unfold combineStep
  split
  · simp_all
  · simp_all
  · simp [_combine_rewrites, hfail]

theorem combineStep_fields (u l : String) (r0 : RewriteResult)
    (st : LoopState) :
    (combineStep u l r0 st).1.finding_types = st.finding_types ∧
    (combineStep u l r0 st).1.findings_count = st.findings_count := by
  unfold combineStep
  split
  · exact ⟨rfl, rfl⟩
  · exact ⟨rfl, rfl⟩
  · simp only [_combine_rewrites]
    split
    · exact ⟨rfl, rfl⟩
    · exact ⟨rfl, rfl⟩

theorem combineStep_rewritten_iff (u l : String) (st : LoopState) :
    (combineStep u l (emptyResult l) st).1.rewritten =
      ((combineStep u l (emptyResult l) st).1.rewritten_response).isSome := by
  unfold combineStep
  split
  · simp [emptyResult]
  · simp
  · simp only [_combine_rewrites]
    split
    · rename_i hTru
      simp [Option.isSome_iff_exists]
      rcases optStrTruthy_isSome _ hTru with h2
      rcases Option.isSome_iff_exists.1 h2 with ⟨s, hs⟩
      exact ⟨s, hs⟩
    · simp [emptyResult]

/-- Left fold extending an accumulator list equals the flattened map. -/
theorem foldl_append_eq_flatten {α β : Type} (g : α → List β) :
    ∀ (xs : List α) (init : List β),
      xs.foldl (fun acc x => acc ++ g x) init = init ++ (xs.map g).flatten
  | [], init => by simp
  | x :: xs, init => by
    rw [List.foldl_cons, foldl_append_eq_flatten g xs (init ++ g x)]
    simp

/-! ### Claim theorems -/

/-- C1 (amended): in every result of `rewrite_response`, the `rewritten` flag
is `true` exactly when `rewritten_response` is present (`some`); when the flag
is `false` the rewritten text is absent (`none`).  (Non-emptiness of the
present text does not hold in general; see the counterexample.) -/
theorem rewritten_iff_rewritten_response_present (ctx : Ctx) (u l : String)
    (af : Option (List Finding)) (client : Client) :
    (rewrite_response ctx u l af client).1.rewritten =
      ((rewrite_response ctx u l af client).1.rewritten_response).isSome := by
  unfold rewrite_response
  rcases af with _ | findings
  · simp [emptyResult]
  · simp only []
    split
    · simp [emptyResult]
    · split
      · simp [emptyResult]
      · split
        · simp [emptyResult]
        · split
          · simp [emptyResult]
          · exact combineStep_rewritten_iff u l _

/-- C1 counterexample: when the single per-category generation call returns
the empty string, the result has `rewritten = true` but the final rewritten
text is the empty string — present yet empty, contradicting the claimed
non-emptiness. -/
theorem rewritten_nonempty_counterexample :
    (rewrite_response { templates := fun _ => some "T" } "q" "a"
        (some [{ result := some "INVALID" }]) [some ""]).1.rewritten = true ∧
    (rewrite_response { templates := fun _ => some "T" } "q" "a"
        (some [{ result := some "INVALID" }]) [some ""]).1.rewritten_response =
      some "" := by
  decide

/-- C2: when the priority sequence is exactly `[TOO_COMPLEX]` (every
recognized finding is `TOO_COMPLEX`), the result is rewritten with the fixed
canned message, records the category, and no generation call is made. -/
theorem too_complex_short_circuit (ctx : Ctx) (u l : String)
    (findings : List Finding) (client : Client)
    (h : get_priority_types (categorize_findings findings) =
      [FindingType.TOO_COMPLEX]) :
    (rewrite_response ctx u l (some findings) client).1.rewritten = true ∧
    (rewrite_response ctx u l (some findings) client).1.rewritten_response =
      some tooComplexMessage ∧
    (rewrite_response ctx u l (some findings) client).1.finding_types =
      [FindingType.TOO_COMPLEX.key] ∧
    (rewrite_response ctx u l (some findings) client).2 = 0 := by
  have h0 : findings ≠ [] := by
    intro e
    rw [e] at h
    simp [categorize_findings, get_priority_types] at h
  unfold rewrite_response
  simp only []
  rw [if_neg h0, h]
  simp

/-- C2 witness. -/
theorem too_complex_short_circuit_witness :
    get_priority_types
        (categorize_findings [{ result := some "TOO_COMPLEX" }]) =
      [FindingType.TOO_COMPLEX] ∧
    ((rewrite_response { templates := fun _ => none } "q" "a"
        (some [{ result := some "TOO_COMPLEX" }]) []).1.rewritten = true ∧
     (rewrite_response { templates := fun _ => none } "q" "a"
        (some [{ result := some "TOO_COMPLEX" }]) []).1.rewritten_response =
        some tooComplexMessage ∧
     (rewrite_response { templates := fun _ => none } "q" "a"
        (some [{ result := some "TOO_COMPLEX" }]) []).1.finding_types =
        [FindingType.TOO_COMPLEX.key] ∧
     (rewrite_response { templates := fun _ => none } "q" "a"
        (some [{ result := some "TOO_COMPLEX" }]) []).2 = 0) :=
  ⟨by decide,
   too_complex_short_circuit { templates := fun _ => none } "q" "a"
     [{ result := some "TOO_COMPLEX" }] [] (by decide)⟩

/-- C3: when the priority sequence is exactly `[VALID]` (every recognized
finding is `VALID`), the result is not rewritten, makes no generation call,
records `finding_types = ["VALID"]`, a message naming the category, and a
findings count equal to the number of `VALID` findings. -/
theorem valid_only_no_rewrite (ctx : Ctx) (u l : String)
    (findings : List Finding) (client : Client)
    (h : get_priority_types (categorize_findings findings) =
      [FindingType.VALID]) :
    (rewrite_response ctx u l (some findings) client).1.rewritten = false ∧
    (rewrite_response ctx u l (some findings) client).1.finding_types =
      [FindingType.VALID.key] ∧
    (rewrite_response ctx u l (some findings) client).1.message =
      some ("No rewrite needed. Finding type: " ++ FindingType.VALID.key) ∧
    (rewrite_response ctx u l (some findings) client).1.findings_count =
      (findings.filter (fun f =>
        FindingType.from_string f.resultStr = some FindingType.VALID)).length ∧
    (rewrite_response ctx u l (some findings) client).2 = 0 := by
  have h0 : findings ≠ [] := by
    intro e
    rw [e] at h
    simp [categorize_findings, get_priority_types] at h
  unfold rewrite_response
  simp only []
  rw [if_neg h0, h]
  simp [lookupType_categorize, emptyResult]

/-- C3 witness. -/
theorem valid_only_no_rewrite_witness :
    get_priority_types
        (categorize_findings [{ result := some "VALID" }]) =
      [FindingType.VALID] ∧
    ((rewrite_response { templates := fun _ => none } "q" "a"
        (some [{ result := some "VALID" }]) []).1.rewritten = false ∧
     (rewrite_response { templates := fun _ => none } "q" "a"
        (some [{ result := some "VALID" }]) []).1.finding_types =
        [FindingType.VALID.key] ∧
     (rewrite_response { templates := fun _ => none } "q" "a"
        (some [{ result := some "VALID" }]) []).1.message =
        some ("No rewrite needed. Finding type: " ++ FindingType.VALID.key) ∧
     (rewrite_response { templates := fun _ => none } "q" "a"
        (some [{ result := some "VALID" }]) []).1.findings_count =
        ([{ result := some "VALID" : Finding }].filter (fun f =>
          FindingType.from_string f.resultStr =
            some FindingType.VALID)).length ∧
     (rewrite_response { templates := fun _ => none } "q" "a"
        (some [{ result := some "VALID" }]) []).2 = 0) :=
  ⟨by decide,
   valid_only_no_rewrite { templates := fun _ => none } "q" "a"
     [{ result := some "VALID" }] [] (by decide)⟩

/-- C4: on every grouped mapping (distinct keys), `get_priority_types`
returns exactly the categories present, sorted strictly descending by
priority rank; ranks are pairwise distinct, the fixed order is
INVALID > SATISFIABLE > NO_DATA > TRANSLATION_AMBIGUOUS > TOO_COMPLEX >
VALID, and the empty mapping yields the empty sequence. -/
theorem get_priority_types_spec (m : Grouped) (h : (keysOf m).Nodup) :
    (get_priority_types m).Pairwise (fun a b => b.priority < a.priority) ∧
    (∀ t : FindingType, t ∈ get_priority_types m ↔ t ∈ keysOf m) ∧
    (∀ a b : FindingType, a ≠ b → a.priority ≠ b.priority) ∧
    FindingType.VALID.priority < FindingType.TOO_COMPLEX.priority ∧
    FindingType.TOO_COMPLEX.priority <
      FindingType.TRANSLATION_AMBIGUOUS.priority ∧
    FindingType.TRANSLATION_AMBIGUOUS.priority <
      FindingType.NO_DATA.priority ∧
    FindingType.NO_DATA.priority < FindingType.SATISFIABLE.priority ∧
    FindingType.SATISFIABLE.priority < FindingType.INVALID.priority ∧
    get_priority_types [] = [] := by
  refine ⟨get_priority_types_pairwise_lt m h, mem_get_priority_types m, ?_,
    by decide, by decide, by decide, by decide, by decide, rfl⟩
  intro a b hne he
  exact hne (priority_injective a b he)

/-- C4 witness. -/
theorem get_priority_types_spec_witness :
    (keysOf [(FindingType.VALID, []), (FindingType.INVALID, [])]).Nodup ∧
    ((get_priority_types
        [(FindingType.VALID, []), (FindingType.INVALID, [])]).Pairwise
          (fun a b => b.priority < a.priority) ∧
     (∀ t : FindingType,
        t ∈ get_priority_types
          [(FindingType.VALID, []), (FindingType.INVALID, [])] ↔
        t ∈ keysOf [(FindingType.VALID, []), (FindingType.INVALID, [])]) ∧
     (∀ a b : FindingType, a ≠ b → a.priority ≠ b.priority) ∧
     FindingType.VALID.priority < FindingType.TOO_COMPLEX.priority ∧
     FindingType.TOO_COMPLEX.priority <
       FindingType.TRANSLATION_AMBIGUOUS.priority ∧
     FindingType.TRANSLATION_AMBIGUOUS.priority <
       FindingType.NO_DATA.priority ∧
     FindingType.NO_DATA.priority < FindingType.SATISFIABLE.priority ∧
     FindingType.SATISFIABLE.priority < FindingType.INVALID.priority ∧
     get_priority_types [] = []) :=
  ⟨by decide,
   get_priority_types_spec [(FindingType.VALID, []), (FindingType.INVALID, [])]
     (by decide)⟩


/-- C5: in every run that enters per-category rewriting, the result's
`finding_types` are exactly (the keys of) the categories that successfully
produced a RewriteOutcome, in descending priority order, and
`findings_count` is the total number of findings belonging to exactly those
categories. -/
theorem per_category_rewrite_record (ctx : Ctx) (u l : String)
    (findings : List Finding) (client : Client)
    (h0 : findings ≠ [])
    (h1 : get_priority_types (categorize_findings findings) ≠ [])
    (h2 : get_priority_types (categorize_findings findings) ≠
      [FindingType.TOO_COMPLEX])
    (h3 : get_priority_types (categorize_findings findings) ≠
      [FindingType.VALID]) :
    (rewrite_response ctx u l (some findings) client).1.finding_types =
        (specOutcomes ctx u l (categorize_findings findings)
          (get_priority_types (categorize_findings findings)) client).map
          (fun p => p.1.key) ∧
    (rewrite_response ctx u l (some findings) client).1.findings_count =
        ((specOutcomes ctx u l (categorize_findings findings)
          (get_priority_types (categorize_findings findings)) client).map
          (fun p => (findings.filter (fun f =>
            FindingType.from_string f.resultStr = some p.1)).length)).sum ∧
    ((specOutcomes ctx u l (categorize_findings findings)
       (get_priority_types (categorize_findings findings)) client).map
       Prod.fst).Pairwise (fun a b => b.priority < a.priority) := by
  have hloop : rewrite_response ctx u l (some findings) client =
      combineStep u l (emptyResult l)
        (processTypes ctx u l (categorize_findings findings)
          (get_priority_types (categorize_findings findings))
          (initState client)) := by
    unfold rewrite_response
    simp only []
    rw [if_neg h0, if_neg h1, if_neg h2, if_neg h3]
  obtain ⟨hs1, hs2, hs3, hs4, hs5⟩ :=
    processTypes_spec ctx u l (categorize_findings findings)
      (get_priority_types (categorize_findings findings)) (initState client)
  obtain ⟨hf1, hf2⟩ := combineStep_fields u l (emptyResult l)
    (processTypes ctx u l (categorize_findings findings)
      (get_priority_types (categorize_findings findings)) (initState client))
  rw [hloop]
  refine ⟨?_, ?_, ?_⟩
  · rw [hf1, hs2]
    simp [initState]
  · rw [hf2, hs3]
    simp [initState, lookupType_categorize]
  · exact List.Pairwise.sublist
      (specOutcomes_fst_sublist ctx u l (categorize_findings findings)
        (get_priority_types (categorize_findings findings)) client)
      (get_priority_types_pairwise_lt (categorize_findings findings)
        (nodup_keysOf_categorize findings))

/-- C6: in the per-category loop, a category whose prompt composition yields
no usable prompt, or whose generation call raises, is skipped by itself: the
loop's outcome on the remaining categories is exactly the loop run without
the failed category (with the failed generation call consuming one response
from the trace). -/
theorem category_failure_skipped (ctx : Ctx) (u l : String) (fbt : Grouped)
    (c : FindingType) (rest : List FindingType) (st : LoopState) :
    (hasPrompt ctx u l fbt c = false →
      processTypes ctx u l fbt (c :: rest) st =
        processTypes ctx u l fbt rest st) ∧
    (∀ c2 : Client, hasPrompt ctx u l fbt c = true → st.client = none :: c2 →
      processTypes ctx u l fbt (c :: rest) st =
        processTypes ctx u l fbt rest
          { st with client := c2, calls := st.calls + 1 }) := by
  constructor
  · intro h
    simp only [processTypes]
    rw [processType_no_prompt ctx u l fbt st c h]
  · intro c2 h hc
    simp only [processTypes]
    rw [processType_fail ctx u l fbt st c c2 h hc]

/-- C6 witness: a category without a template is skipped; a category whose
generation call raises is skipped after consuming its response. -/
theorem category_failure_skipped_witness :
    (hasPrompt { templates := fun _ => none } "q" "a" []
        FindingType.INVALID = false ∧
      processTypes { templates := fun _ => none } "q" "a" []
          [FindingType.INVALID] (initState []) =
        processTypes { templates := fun _ => none } "q" "a" [] []
          (initState [])) ∧
    (hasPrompt { templates := fun _ => some "T" } "q" "a" []
        FindingType.INVALID = true ∧
      (initState [none]).client = none :: [] ∧
      processTypes { templates := fun _ => some "T" } "q" "a" []
          [FindingType.INVALID] (initState [none]) =
        processTypes { templates := fun _ => some "T" } "q" "a" [] []
          { initState [none] with
              client := [], calls := (initState [none]).calls + 1 }) :=
  ⟨⟨by decide,
    (category_failure_skipped { templates := fun _ => none } "q" "a" []
      FindingType.INVALID [] (initState [])).1 (by decide)⟩,
   ⟨by decide, rfl,
    (category_failure_skipped { templates := fun _ => some "T" } "q" "a" []
      FindingType.INVALID [] (initState [none])).2 [] (by decide) rfl⟩⟩

/-- C7: after the per-category loop, zero RewriteOutcomes yield a
not-rewritten result with the "no rewrites generated" message, and exactly
one RewriteOutcome is used directly as the final rewritten text with no
merge generation call (the total number of generation calls equals the
per-category calls). -/
theorem after_loop_zero_or_single (ctx : Ctx) (u l : String)
    (findings : List Finding) (client : Client)
    (h0 : findings ≠ [])
    (h1 : get_priority_types (categorize_findings findings) ≠ [])
    (h2 : get_priority_types (categorize_findings findings) ≠
      [FindingType.TOO_COMPLEX])
    (h3 : get_priority_types (categorize_findings findings) ≠
      [FindingType.VALID]) :
    (specOutcomes ctx u l (categorize_findings findings)
        (get_priority_types (categorize_findings findings)) client = [] →
      (rewrite_response ctx u l (some findings) client).1.rewritten = false ∧
      (rewrite_response ctx u l (some findings) client).1.message =
        some "No rewrites generated" ∧
      (rewrite_response ctx u l (some findings) client).1.rewritten_response =
        none) ∧
    (∀ (ft : FindingType) (text : String),
      specOutcomes ctx u l (categorize_findings findings)
        (get_priority_types (categorize_findings findings)) client =
          [(ft, text)] →
      (rewrite_response ctx u l (some findings) client).1.rewritten = true ∧
      (rewrite_response ctx u l (some findings) client).1.rewritten_response =
        some text ∧
      (rewrite_response ctx u l (some findings) client).2 =
        promptCount ctx u l (categorize_findings findings)
          (get_priority_types (categorize_findings findings))) := by
  have hloop : rewrite_response ctx u l (some findings) client =
      combineStep u l (emptyResult l)
        (processTypes ctx u l (categorize_findings findings)
          (get_priority_types (categorize_findings findings))
          (initState client)) := by
    unfold rewrite_response
    simp only []
    rw [if_neg h0, if_neg h1, if_neg h2, if_neg h3]
  obtain ⟨hs1, hs2, hs3, hs4, hs5⟩ :=
    processTypes_spec ctx u l (categorize_findings findings)
      (get_priority_types (categorize_findings findings)) (initState client)
  constructor
  · intro hS
    have hrw : (processTypes ctx u l (categorize_findings findings)
        (get_priority_types (categorize_findings findings))
        (initState client)).rewrites = [] := by
      rw [hs1]
      simp only [initState] at hS ⊢
      simp [hS]
    rw [hloop, combineStep_of_rewrites_nil u l _ _ hrw]
    simp [emptyResult]
  · intro ft text hS
    have hrw : (processTypes ctx u l (categorize_findings findings)
        (get_priority_types (categorize_findings findings))
        (initState client)).rewrites =
          [{ finding_type := ft.key, rewritten_text := text }] := by
      rw [hs1]
      simp only [initState] at hS ⊢
      simp [hS]
    rw [hloop, combineStep_of_rewrites_single u l _ _ _ hrw]
    refine ⟨rfl, rfl, ?_⟩
    rw [hs5]
    simp [initState]

/-- C8: when the merge generation call fails or returns no usable text, the
result is not rewritten, carries the "error combining rewrites" message, and
returns no rewritten text at all — the per-category rewrite texts are
discarded. -/
theorem merge_failure_discards (ctx : Ctx) (u l : String)
    (findings : List Finding) (client : Client)
    (h0 : findings ≠ [])
    (h1 : get_priority_types (categorize_findings findings) ≠ [])
    (h2 : get_priority_types (categorize_findings findings) ≠
      [FindingType.TOO_COMPLEX])
    (h3 : get_priority_types (categorize_findings findings) ≠
      [FindingType.VALID])
    (p1 p2 : FindingType × String) (ps : List (FindingType × String))
    (hS : specOutcomes ctx u l (categorize_findings findings)
      (get_priority_types (categorize_findings findings)) client =
        p1 :: p2 :: ps)
    (hfail : optStrTruthy (converse (client.drop
      (promptCount ctx u l (categorize_findings findings)
        (get_priority_types (categorize_findings findings))))).1 = false) :
    (rewrite_response ctx u l (some findings) client).1.rewritten = false ∧
    (rewrite_response ctx u l (some findings) client).1.message =
      some "Error combining rewrites" ∧
    (rewrite_response ctx u l (some findings) client).1.rewritten_response =
      none := by
  have hloop : rewrite_response ctx u l (some findings) client =
      combineStep u l (emptyResult l)
        (processTypes ctx u l (categorize_findings findings)
          (get_priority_types (categorize_findings findings))
          (initState client)) := by
    unfold rewrite_response
    simp only []
    rw [if_neg h0, if_neg h1, if_neg h2, if_neg h3]
  obtain ⟨hs1, hs2, hs3, hs4, hs5⟩ :=
    processTypes_spec ctx u l (categorize_findings findings)
      (get_priority_types (categorize_findings findings)) (initState client)
  have hrw : (processTypes ctx u l (categorize_findings findings)
      (get_priority_types (categorize_findings findings))
      (initState client)).rewrites =
        { finding_type := p1.1.key, rewritten_text := p1.2 } ::
        { finding_type := p2.1.key, rewritten_text := p2.2 } ::
        ps.map (fun p =>
          { finding_type := p.1.key, rewritten_text := p.2 : Rewrite }) := by
    rw [hs1]
    simp only [initState] at hS ⊢
    simp [hS]
  have hfail2 : optStrTruthy (converse (processTypes ctx u l
      (categorize_findings findings)
      (get_priority_types (categorize_findings findings))
      (initState client)).client).1 = false := by
    rw [hs4]
    simpa [initState] using hfail
  rw [hloop, combineStep_merge_fail u l _ _ _ _ _ hrw hfail2]
  simp [emptyResult]


/-- C5 witness: two categories, both generating successfully. -/
theorem per_category_rewrite_record_witness :
    ([{ result := some "INVALID" }, { result := some "NO_DATA" }] ≠
        ([] : List Finding)) ∧
    (get_priority_types (categorize_findings
        [{ result := some "INVALID" }, { result := some "NO_DATA" }]) ≠ []) ∧
    (get_priority_types (categorize_findings
        [{ result := some "INVALID" }, { result := some "NO_DATA" }]) ≠
      [FindingType.TOO_COMPLEX]) ∧
    (get_priority_types (categorize_findings
        [{ result := some "INVALID" }, { result := some "NO_DATA" }]) ≠
      [FindingType.VALID]) ∧
    ((rewrite_response { templates := fun _ => some "T" } "q" "a"
        (some [{ result := some "INVALID" }, { result := some "NO_DATA" }])
        [some "t1", some "t2", some "m"]).1.finding_types =
          (specOutcomes { templates := fun _ => some "T" } "q" "a"
            (categorize_findings
              [{ result := some "INVALID" }, { result := some "NO_DATA" }])
            (get_priority_types (categorize_findings
              [{ result := some "INVALID" }, { result := some "NO_DATA" }]))
            [some "t1", some "t2", some "m"]).map (fun p => p.1.key) ∧
     (rewrite_response { templates := fun _ => some "T" } "q" "a"
        (some [{ result := some "INVALID" }, { result := some "NO_DATA" }])
        [some "t1", some "t2", some "m"]).1.findings_count =
          ((specOutcomes { templates := fun _ => some "T" } "q" "a"
            (categorize_findings
              [{ result := some "INVALID" }, { result := some "NO_DATA" }])
            (get_priority_types (categorize_findings
              [{ result := some "INVALID" }, { result := some "NO_DATA" }]))
            [some "t1", some "t2", some "m"]).map
            (fun p => (([{ result := some "INVALID" }, { result := some "NO_DATA" }] : List Finding).filter (fun f =>
                FindingType.from_string f.resultStr = some p.1)).length)).sum ∧
     ((specOutcomes { templates := fun _ => some "T" } "q" "a"
        (categorize_findings
          [{ result := some "INVALID" }, { result := some "NO_DATA" }])
        (get_priority_types (categorize_findings
          [{ result := some "INVALID" }, { result := some "NO_DATA" }]))
        [some "t1", some "t2", some "m"]).map Prod.fst).Pairwise
          (fun a b => b.priority < a.priority)) :=
  ⟨by decide, by decide, by decide, by decide,
   per_category_rewrite_record { templates := fun _ => some "T" } "q" "a"
     [{ result := some "INVALID" }, { result := some "NO_DATA" }]
     [some "t1", some "t2", some "m"]
     (by decide) (by decide) (by decide) (by decide)⟩

/-- C7 witness: a failing generation call yields zero outcomes and the
"No rewrites generated" result; a single successful outcome is used directly
with no merge call. -/
theorem after_loop_zero_or_single_witness :
    (specOutcomes { templates := fun _ => some "T" } "q" "a"
        (categorize_findings [{ result := some "INVALID" }])
        (get_priority_types
          (categorize_findings [{ result := some "INVALID" }])) [none] =
      []) ∧
    ((rewrite_response { templates := fun _ => some "T" } "q" "a"
        (some [{ result := some "INVALID" }]) [none]).1.rewritten = false ∧
     (rewrite_response { templates := fun _ => some "T" } "q" "a"
        (some [{ result := some "INVALID" }]) [none]).1.message =
        some "No rewrites generated" ∧
     (rewrite_response { templates := fun _ => some "T" } "q" "a"
        (some [{ result := some "INVALID" }]) [none]).1.rewritten_response =
        none) ∧
    (specOutcomes { templates := fun _ => some "T" } "q" "a"
        (categorize_findings [{ result := some "INVALID" }])
        (get_priority_types
          (categorize_findings [{ result := some "INVALID" }]))
        [some "t1"] = [(FindingType.INVALID, "t1")]) ∧
    ((rewrite_response { templates := fun _ => some "T" } "q" "a"
        (some [{ result := some "INVALID" }]) [some "t1"]).1.rewritten =
        true ∧
     (rewrite_response { templates := fun _ => some "T" } "q" "a"
        (some [{ result := some "INVALID" }])
        [some "t1"]).1.rewritten_response = some "t1" ∧
     (rewrite_response { templates := fun _ => some "T" } "q" "a"
        (some [{ result := some "INVALID" }]) [some "t1"]).2 =
        promptCount { templates := fun _ => some "T" } "q" "a"
          (categorize_findings [{ result := some "INVALID" }])
          (get_priority_types
            (categorize_findings [{ result := some "INVALID" }]))) :=
  ⟨by decide,
   (after_loop_zero_or_single { templates := fun _ => some "T" } "q" "a"
     [{ result := some "INVALID" }] [none]
     (by decide) (by decide) (by decide) (by decide)).1 (by decide),
   by decide,
   (after_loop_zero_or_single { templates := fun _ => some "T" } "q" "a"
     [{ result := some "INVALID" }] [some "t1"]
     (by decide) (by decide) (by decide) (by decide)).2
     FindingType.INVALID "t1" (by decide)⟩

/-- C8 witness: two successful per-category rewrites whose merge call raises;
the result is not rewritten and no text is returned. -/
theorem merge_failure_discards_witness :
    (specOutcomes { templates := fun _ => some "T" } "q" "a"
        (categorize_findings
          [{ result := some "INVALID" }, { result := some "NO_DATA" }])
        (get_priority_types (categorize_findings
          [{ result := some "INVALID" }, { result := some "NO_DATA" }]))
        [some "t1", some "t2", none] =
      (FindingType.INVALID, "t1") :: (FindingType.NO_DATA, "t2") :: []) ∧
    (optStrTruthy (converse ([some "t1", some "t2", none].drop
      (promptCount { templates := fun _ => some "T" } "q" "a"
        (categorize_findings
          [{ result := some "INVALID" }, { result := some "NO_DATA" }])
        (get_priority_types (categorize_findings
          [{ result := some "INVALID" },
           { result := some "NO_DATA" }]))))).1 = false) ∧
    ((rewrite_response { templates := fun _ => some "T" } "q" "a"
        (some [{ result := some "INVALID" }, { result := some "NO_DATA" }])
        [some "t1", some "t2", none]).1.rewritten = false ∧
     (rewrite_response { templates := fun _ => some "T" } "q" "a"
        (some [{ result := some "INVALID" }, { result := some "NO_DATA" }])
        [some "t1", some "t2", none]).1.message =
        some "Error combining rewrites" ∧
     (rewrite_response { templates := fun _ => some "T" } "q" "a"
        (some [{ result := some "INVALID" }, { result := some "NO_DATA" }])
        [some "t1", some "t2", none]).1.rewritten_response = none) :=
  ⟨by decide, by decide,
   merge_failure_discards { templates := fun _ => some "T" } "q" "a"
     [{ result := some "INVALID" }, { result := some "NO_DATA" }]
     [some "t1", some "t2", none]
     (by decide) (by decide) (by decide) (by decide)
     (FindingType.INVALID, "t1") (FindingType.NO_DATA, "t2") []
     (by decide) (by decide)⟩

/-- C9 (amended): for every category and nonempty findings list, the
aggregation renders one bullet per original violation/suggestion entry,
flattened in order; applied-rule identifiers are comma-joined without
de-duplication; and empty violation/suggestion (and rule) collections render
fixed fallback text.  (For the empty findings list the aggregation returns
the empty mapping instead; see the counterexample.) -/
theorem process_finding_data_agg (pd : Option String) (ft : FindingType)
    (findings : List Finding) (h : findings ≠ []) :
    (process_finding_data pd ft findings).lookup "violations" =
        some (if (findings.map Finding.violations).flatten ≠ []
          then String.intercalate "\n"
            (((findings.map Finding.violations).flatten).map
              (fun v => "- " ++ v))
          else "No specific violations found") ∧
    (process_finding_data pd ft findings).lookup "suggestions" =
        some (if (findings.map Finding.suggestions).flatten ≠ []
          then String.intercalate "\n"
            (((findings.map Finding.suggestions).flatten).map
              (fun s => "- " ++ s))
          else "Ensure compliance with policy requirements") ∧
    (process_finding_data pd ft findings).lookup "applied_rules" =
        some (if (findings.map Finding.appliedRules).flatten ≠ []
          then String.intercalate ", "
            ((findings.map Finding.appliedRules).flatten)
          else "Policy rules") := by
  unfold process_finding_data
  rw [if_neg h]
  simp only [foldl_append_eq_flatten, List.nil_append]
  by_cases hp : optStrTruthy pd
  · rw [if_pos hp]
    exact ⟨rfl, rfl, rfl⟩
  · rw [if_neg hp]
    exact ⟨rfl, rfl, rfl⟩

/-- C9 counterexample: on the empty findings list the aggregation returns the
empty mapping, so empty violation lists are not rendered as fallback text —
there is no violations field at all. -/
theorem process_finding_data_empty_counterexample :
    process_finding_data none FindingType.INVALID [] = [] ∧
    (process_finding_data none FindingType.INVALID []).lookup "violations" =
      none := by
  decide

/-- C9 witness: duplicates pass through the rule join; empty suggestion lists
fall back to the fixed text. -/
theorem process_finding_data_agg_witness :
    (([{ result := some "INVALID", violations := ["v1", "v2"], suggestions := [], appliedRules := ["R1", "R1"] }] : List Finding) ≠ []) ∧
    ((process_finding_data none FindingType.INVALID [{ result := some "INVALID", violations := ["v1", "v2"], suggestions := [], appliedRules := ["R1", "R1"] }]).lookup "violations" =
        some (if (([{ result := some "INVALID", violations := ["v1", "v2"], suggestions := [], appliedRules := ["R1", "R1"] }] : List Finding).map Finding.violations).flatten ≠ []
          then String.intercalate "\n" (((([{ result := some "INVALID", violations := ["v1", "v2"], suggestions := [], appliedRules := ["R1", "R1"] }] : List Finding).map Finding.violations).flatten).map (fun v => "- " ++ v))
          else "No specific violations found") ∧
     (process_finding_data none FindingType.INVALID [{ result := some "INVALID", violations := ["v1", "v2"], suggestions := [], appliedRules := ["R1", "R1"] }]).lookup "suggestions" =
        some (if (([{ result := some "INVALID", violations := ["v1", "v2"], suggestions := [], appliedRules := ["R1", "R1"] }] : List Finding).map Finding.suggestions).flatten ≠ []
          then String.intercalate "\n" (((([{ result := some "INVALID", violations := ["v1", "v2"], suggestions := [], appliedRules := ["R1", "R1"] }] : List Finding).map Finding.suggestions).flatten).map (fun s => "- " ++ s))
          else "Ensure compliance with policy requirements") ∧
     (process_finding_data none FindingType.INVALID [{ result := some "INVALID", violations := ["v1", "v2"], suggestions := [], appliedRules := ["R1", "R1"] }]).lookup "applied_rules" =
        some (if (([{ result := some "INVALID", violations := ["v1", "v2"], suggestions := [], appliedRules := ["R1", "R1"] }] : List Finding).map Finding.appliedRules).flatten ≠ []
          then String.intercalate ", " ((([{ result := some "INVALID", violations := ["v1", "v2"], suggestions := [], appliedRules := ["R1", "R1"] }] : List Finding).map Finding.appliedRules).flatten)
          else "Policy rules")) :=
  ⟨by decide,
   process_finding_data_agg none FindingType.INVALID
     [{ result := some "INVALID", violations := ["v1", "v2"], suggestions := [], appliedRules := ["R1", "R1"] }] (by decide)⟩

/-- C10: a finding with an unrecognized result string is silently excluded
from every group of the classified mapping; and for every nonempty finding
set in which every result string is unrecognized, the mapping and the
priority sequence are empty and the run returns a not-rewritten result
marked "No actionable findings" without any generation call. -/
theorem unrecognized_findings_spec :
    (∀ (findings : List Finding) (f : Finding) (ft : FindingType),
        FindingType.from_string f.resultStr = none →
        f ∉ lookupType (categorize_findings findings) ft) ∧
    (∀ (ctx : Ctx) (u l : String) (findings : List Finding) (client : Client),
        findings ≠ [] →
        (∀ f ∈ findings, FindingType.from_string f.resultStr = none) →
        categorize_findings findings = [] ∧
        get_priority_types (categorize_findings findings) = [] ∧
        (rewrite_response ctx u l (some findings) client).1.rewritten =
          false ∧
        (rewrite_response ctx u l (some findings) client).1.message =
          some "No actionable findings" ∧
        (rewrite_response ctx u l (some findings) client).1.rewritten_response
          = none ∧
        (rewrite_response ctx u l (some findings) client).2 = 0) := by
  constructor
  · intro findings f ft hf hmem
    rw [lookupType_categorize] at hmem
    have hft := List.of_mem_filter hmem
    rw [hf] at hft
    simp at hft
  · intro ctx u l findings client h0 hall
    have hcat := categorize_all_unrecognized findings hall
    have hpt : get_priority_types (categorize_findings findings) = [] := by
      rw [hcat]
      rfl
    refine ⟨hcat, hpt, ?_, ?_, ?_, ?_⟩ <;>
      (unfold rewrite_response
       simp only []
       rw [if_neg h0, hpt]
       simp [emptyResult])

/-- C10 witness. -/
theorem unrecognized_findings_spec_witness :
    (FindingType.from_string
        (Finding.resultStr { result := some "WEIRD" }) = none ∧
      ({ result := some "WEIRD" : Finding } ∉
        lookupType (categorize_findings [{ result := some "WEIRD" }])
          FindingType.INVALID)) ∧
    (([{ result := some "WEIRD" }] ≠ ([] : List Finding)) ∧
      (categorize_findings [{ result := some "WEIRD" }] = [] ∧
       get_priority_types (categorize_findings
         [{ result := some "WEIRD" }]) = [] ∧
       (rewrite_response { templates := fun _ => none } "q" "a"
          (some [{ result := some "WEIRD" }]) []).1.rewritten = false ∧
       (rewrite_response { templates := fun _ => none } "q" "a"
          (some [{ result := some "WEIRD" }]) []).1.message =
          some "No actionable findings" ∧
       (rewrite_response { templates := fun _ => none } "q" "a"
          (some [{ result := some "WEIRD" }]) []).1.rewritten_response =
          none ∧
       (rewrite_response { templates := fun _ => none } "q" "a"
          (some [{ result := some "WEIRD" }]) []).2 = 0)) :=
  ⟨⟨by decide,
    unrecognized_findings_spec.1 [{ result := some "WEIRD" }]
      { result := some "WEIRD" } FindingType.INVALID (by decide)⟩,
   ⟨by decide,
    unrecognized_findings_spec.2 { templates := fun _ => none } "q" "a"
      [{ result := some "WEIRD" }] [] (by decide) (by decide)⟩⟩

end ARC
